import Mathlib

/-!
Verification of the invoice_validator repository.

The development shallowly embeds the compliance rule engine
(src/invoice_validator/tools/validation_tool.py), the streaming pipeline
orchestrator (src/invoice_validator/crew.py) and the log sinks
(src/invoice_validator/utils/callbacks.py, src/invoice_validator/main.py).

Python floats (pydantic float fields, arithmetic, `round(x, 2)`, the 0.01
tolerances) are embedded as exact rationals ℚ; `round(x, 2)` is embedded as
exact decimal rounding to two places and `int(x)` as truncation toward zero.
Strings are Lean strings; the log text handled by the log sinks is embedded
as `List Char`.  Python exceptions are embedded with `Except` / `Option`.
-/

/-- Vendor record of invoice_schema.py: all four fields optional strings. -/
structure Vendor where
  name : Option String := none
  gstin : Option String := none
  pan : Option String := none
  address : Option String := none
deriving DecidableEq

/-- Buyer record of invoice_schema.py. -/
structure Buyer where
  name : Option String := none
  gstin : Option String := none
  address : Option String := none
deriving DecidableEq

/-- Line item of invoice_schema.py.  The numeric fields are declared
`Optional[float] = 0` with a validator coercing `None` to 0 before
validation, so by the time a `LineItem` exists its numeric slots are plain
numbers; they are embedded as ℚ directly. -/
structure LineItem where
  description : Option String := none
  hsn_sac : Option String := none
  quantity : ℚ := 0
  unit : Option String := none
  rate : ℚ := 0
  amount : ℚ := 0
deriving DecidableEq

/-- ParsedInvoice of invoice_schema.py (lines 27-49).  Note: the schema
declares no field named `confidence`; the numeric fields carry the same
None-to-0 coercion as `LineItem` and are embedded as ℚ. -/
structure ParsedInvoice where
  invoice_id : Option String := none
  invoice_number : Option String := none
  invoice_date : Option String := none
  vendor : Vendor
  buyer : Buyer
  line_items : List LineItem := []
  subtotal : ℚ := 0
  cgst_rate : ℚ := 0
  cgst_amount : ℚ := 0
  sgst_rate : ℚ := 0
  sgst_amount : ℚ := 0
  igst_rate : ℚ := 0
  igst_amount : ℚ := 0
  total_tax : ℚ := 0
  total_amount : ℚ := 0
deriving DecidableEq

/-- One rule-check result dictionary appended by the validation tool:
category, details, status ("pass" / "fail"), failure messages, confidence. -/
structure RuleResult where
  category : String
  details : String
  status : String
  failures : List String
  confidence : ℤ
deriving DecidableEq

/-- Embedding of Python `int(x)` on the (exact) value of a float expression:
truncation toward zero. -/
def pyInt (q : ℚ) : ℤ := if 0 ≤ q then ⌊q⌋ else ⌈q⌉

/-- Embedding of Python `round(x, 2)` on the exact value: rounding to two
decimal places (ties rounded up; Python rounds ties of the underlying
binary float to even, which agrees on every non-tie value). -/
def round2 (q : ℚ) : ℚ := ((⌊q * 100 + 1 / 2⌋ : ℤ) : ℚ) / 100

/-- Decimal rendering of an embedded numeric value, standing in for the
interpolation of Python floats into the f-string failure messages. -/
def qStr (q : ℚ) : String :=
  if q.den = 1 then toString q.num else toString q.num ++ "/" ++ toString q.den

/-- Source validation_tool.py line 84: `bool(invoice.invoice_number and
len(invoice.invoice_number) > 0)`. -/
def invNumValid (inv : ParsedInvoice) : Bool :=
  match inv.invoice_number with
  | none => false
  | some s => decide (0 < s.length)

/-- A1 result dictionary (validation_tool.py lines 85-91). -/
def a1Result (inv : ParsedInvoice) : RuleResult :=
  { category := "Category A - Document Authenticity"
    details := "A1 Invoice number format validation"
    status := if invNumValid inv then "pass" else "fail"
    failures := if invNumValid inv then [] else ["Invoice number missing or invalid"]
    confidence := if invNumValid inv then 100 else 0 }

/-- A2 stub result (validation_tool.py lines 94-100): unconditional pass. -/
def a2Result (_ : ParsedInvoice) : RuleResult :=
  { category := "Category A - Document Authenticity"
    details := "A2 Duplicate invoice detection across vendors"
    status := "pass"
    failures := []
    confidence := 70 }

/-- Embeds _validate_document_authenticity (validation_tool.py lines 79-102). -/
def validateDocumentAuthenticity (inv : ParsedInvoice) : List RuleResult :=
  [a1Result inv, a2Result inv]

/-- Python `str.isalnum`: non-empty and every character alphanumeric
(embedded over the ASCII alphanumeric class). -/
def pyIsalnum (s : String) : Bool :=
  !s.data.isEmpty && s.data.all Char.isAlphanum

/-- Embeds _validate_gstin_format (validation_tool.py lines 219-223):
`if not gstin or len(gstin) != 15: return False; return gstin.isalnum()`.
A missing GSTIN (None) is falsy, as is the empty string. -/
def validateGstinFormat : Option String → Bool
  | none => false
  | some g => if g = "" ∨ g.length ≠ 15 then false else pyIsalnum g

/-- B1 result dictionary (validation_tool.py lines 108-118); line 109 reads
`invoice.vendor.gstin`, an `Option String` in the schema. -/
def b1Result (inv : ParsedInvoice) : RuleResult :=
  { category := "Category B - GST Compliance"
    details := "B1 GSTIN format validation (15-character alphanumeric)"
    status := if validateGstinFormat inv.vendor.gstin then "pass" else "fail"
    failures := if validateGstinFormat inv.vendor.gstin then [] else ["Invalid or missing GSTIN format"]
    confidence := if validateGstinFormat inv.vendor.gstin then 100 else 0 }

/-- B2 result dictionary (validation_tool.py lines 121-127): status mirrors
B1, confidence fixed at 60. -/
def b2Result (inv : ParsedInvoice) : RuleResult :=
  { category := "Category B - GST Compliance"
    details := "B2 GSTIN active / suspended status verification"
    status := if validateGstinFormat inv.vendor.gstin then "pass" else "fail"
    failures := if validateGstinFormat inv.vendor.gstin then [] else ["Cannot verify GSTIN status"]
    confidence := 60 }

/-- Embeds _validate_gst_compliance (validation_tool.py lines 104-129). -/
def validateGstCompliance (inv : ParsedInvoice) : List RuleResult :=
  [b1Result inv, b2Result inv]

/-- Source validation_tool.py line 143: a line item mismatches when
`abs(round(quantity*rate, 2) - round(amount, 2)) > 0.01`. -/
def lineMismatch (it : LineItem) : Bool :=
  decide ((1 : ℚ) / 100 < |round2 (it.quantity * it.rate) - round2 it.amount|)

/-- Source validation_tool.py lines 136-145: `line_items_valid` stays true iff the
loop finds no mismatching line. -/
def lineItemsValid (inv : ParsedInvoice) : Bool :=
  inv.line_items.all fun it => !lineMismatch it

/-- Source validation_tool.py line 145: the f-string
`f"Line {idx+1}: {quantity} × {rate} ≠ {amount}"`. -/
def c1LineMsg (idx : ℕ) (it : LineItem) : String :=
  "Line " ++ toString (idx + 1) ++ ": " ++ qStr it.quantity ++ " × " ++
    qStr it.rate ++ " ≠ " ++ qStr it.amount

/-- Source validation_tool.py lines 139-145: `failures_c1` collects, in line order,
one message per mismatching line (the loop over `enumerate(line_items)`). -/
def c1Failures (inv : ParsedInvoice) : List String :=
  (inv.line_items.enum.filter fun p => lineMismatch p.2).map fun p => c1LineMsg p.1 p.2

/-- C1 result dictionary (validation_tool.py lines 147-153). -/
def c1Result (inv : ParsedInvoice) : RuleResult :=
  { category := "Category C - Arithmetic & Calculation Accuracy"
    details := "C1 Line item validation quantity X rate = amount"
    status := if lineItemsValid inv then "pass" else "fail"
    failures := c1Failures inv
    confidence := if lineItemsValid inv then 100 else 80 }

/-- Source validation_tool.py line 156: the sum of line-item amounts (0 for an
empty list, exactly as the Python conditional expression gives). -/
def calculatedSubtotal (inv : ParsedInvoice) : ℚ :=
  (inv.line_items.map LineItem.amount).sum

/-- Source validation_tool.py line 157: `abs(calculated_subtotal - invoice.subtotal) < 0.01`. -/
def subtotalValid (inv : ParsedInvoice) : Bool :=
  decide (|calculatedSubtotal inv - inv.subtotal| < 1 / 100)

/-- Source validation_tool.py line 163: the subtotal-mismatch f-string. -/
def c2Msg (expected got : ℚ) : String :=
  "Subtotal mismatch: Expected " ++ qStr expected ++ ", Got " ++ qStr got

/-- C2 result dictionary (validation_tool.py lines 159-165). -/
def c2Result (inv : ParsedInvoice) : RuleResult :=
  { category := "Category C - Arithmetic & Calculation Accuracy"
    details := "C2 Subtotal equals sum of line item amounts"
    status := if subtotalValid inv then "pass" else "fail"
    failures := if subtotalValid inv then [] else [c2Msg (calculatedSubtotal inv) inv.subtotal]
    confidence := if subtotalValid inv then 100 else 90 }

/-- Embeds _validate_arithmetic (validation_tool.py lines 131-167). -/
def validateArithmetic (inv : ParsedInvoice) : List RuleResult :=
  [c1Result inv, c2Result inv]

/-- Source validation_tool.py line 174: `tds_applicable = invoice.total_amount > 30000`;
the value is computed and then never used by the D1 result. -/
def tdsApplicable (inv : ParsedInvoice) : Bool :=
  decide ((30000 : ℚ) < inv.total_amount)

/-- D1 stub result (validation_tool.py lines 176-182): unconditional pass at
confidence 70, independent of `tdsApplicable`. -/
def d1Result (_ : ParsedInvoice) : RuleResult :=
  { category := "Category D - TDS Compliance"
    details := "D1 TDS applicability determination based on vendor nature"
    status := "pass"
    failures := []
    confidence := 70 }

/-- D2 stub result (validation_tool.py lines 185-191). -/
def d2Result (_ : ParsedInvoice) : RuleResult :=
  { category := "Category D - TDS Compliance"
    details := "D2 Correct TDS section identification (194C / 194J / 194H etc.)"
    status := "pass"
    failures := []
    confidence := 60 }

/-- Embeds _validate_tds_compliance (validation_tool.py lines 169-193). -/
def validateTdsCompliance (inv : ParsedInvoice) : List RuleResult :=
  [d1Result inv, d2Result inv]

/-- E1 stub result (validation_tool.py lines 200-206). -/
def e1Result (_ : ParsedInvoice) : RuleResult :=
  { category := "Category E - Policy & Business Rules"
    details := "E1 Invoice amount within PO tolerance (±5%)"
    status := "pass"
    failures := []
    confidence := 50 }

/-- E2 stub result (validation_tool.py lines 209-215). -/
def e2Result (_ : ParsedInvoice) : RuleResult :=
  { category := "Category E - Policy & Business Rules"
    details := "E2 Invoice date within active contract period"
    status := "pass"
    failures := []
    confidence := 50 }

/-- Embeds _validate_policy_rules (validation_tool.py lines 195-217). -/
def validatePolicyRules (inv : ParsedInvoice) : List RuleResult :=
  [e1Result inv, e2Result inv]

/-- Embeds _run lines 42-61: the category results collected in order A, B, C, D, E. -/
def categoryResults (inv : ParsedInvoice) : List RuleResult :=
  validateDocumentAuthenticity inv ++ validateGstCompliance inv ++
    validateArithmetic inv ++ validateTdsCompliance inv ++ validatePolicyRules inv

/-- Embeds _run line 65: `failed_checks = sum(1 for r in results if r["status"] == "fail")`. -/
def failedChecks (rs : List RuleResult) : ℕ :=
  rs.countP fun r => r.status == "fail"

/-- Embeds _run lines 37 and 63-68: the score starts at 100 and is overwritten with
`int(((total_checks - failed_checks) / total_checks) * 100)` when
`total_checks > 0`. -/
def overallScore (rs : List RuleResult) : ℤ :=
  if 0 < rs.length then
    pyInt (((rs.length : ℚ) - (failedChecks rs : ℚ)) / (rs.length : ℚ) * 100)
  else 100

/-- The JSON object returned by ValidationTool._run on either path. -/
structure EngineOutput where
  error : Option String
  category_results : List RuleResult
  overall_compliance_score : ℤ
deriving DecidableEq

/-- ValidationTool._run (validation_tool.py lines 21-77).  The only fallible
step inside the `try` block is `ParsedInvoice(**parsed_invoice)` (the rule
checks are pure arithmetic on the coerced model); the dictionary-to-model
conversion is therefore embedded as an `Except String ParsedInvoice`
argument, the `error` case carrying the exception text.  The except branch
(lines 72-77) returns score 0, an error field and empty category_results. -/
def runValidationTool : Except String ParsedInvoice → EngineOutput
  | Except.error e =>
      { error := some e, category_results := [], overall_compliance_score := 0 }
  | Except.ok inv =>
      { error := none
        category_results := categoryResults inv
        overall_compliance_score := overallScore (categoryResults inv) }

/-- Pipeline stages of InvoiceValidator.validate_invoice_streaming
(crew.py): the parse crew, the validator crew (high-confidence branch), the
reporter crew on either branch. -/
inductive Stage where
  | parsing
  | validating
  | reporting
  | reportingLowConfidence
deriving DecidableEq

/-- Kinds of Python exception raised inside the streaming run. -/
inductive PyError where
  | attributeError
  | valueError
deriving DecidableEq

/-- Faithful embedding of crew.py line 155, `parsed_json.confidence`:
`ParsedInvoice` (invoice_schema.py lines 27-49) declares the fields
invoice_id, invoice_number, invoice_date, vendor, buyer, line_items,
subtotal, cgst_rate, cgst_amount, sgst_rate, sgst_amount, igst_rate,
igst_amount, total_tax, total_amount — and no field named `confidence`.
Reading an undeclared attribute of a pydantic v2 model raises
AttributeError, so the access is an error for every invoice. -/
def confidenceAttr (_ : ParsedInvoice) : Except PyError ℤ :=
  Except.error PyError.attributeError

/-- Source crew.py lines 113-278: the crews the streaming run actually invokes,
as a function of the structured output of the parse stage.  The parse crew
always runs; with no structured result, line 153 raises ValueError; with a
structured result, line 155 evaluates `parsed_json.confidence` (see
`confidenceAttr`); only if that succeeded would lines 165-250 choose
between the low-confidence reporter and validator-then-reporter branches.
Any exception lands in the handler at lines 272-278, which invokes no
further crew. -/
def stagesInvoked (parsed : Option ParsedInvoice) : List Stage :=
  match parsed with
  | none => [Stage.parsing]
  | some inv =>
    match confidenceAttr inv with
    | Except.error _ => [Stage.parsing]
    | Except.ok c =>
      if c < 70 then [Stage.parsing, Stage.reportingLowConfidence]
      else [Stage.parsing, Stage.validating, Stage.reporting]

/-- Modelled from the spec: the parse-stage `confidence` that crew.py
line 155 expects is absent from the src schema (see `confidenceAttr`), so
the branch-selection input is taken from the spec (§3: an integer set by
the Parse stage).  Given it, this is the sequence of `progress(...)` values
the orchestrator reports on a run that completes: crew.py lines 115, 120,
156, then 170 (low-confidence branch) or 200, 221, 226 (high-confidence
branch), then 253 and 266 on both branches.  A run that dies with an
exception makes no further progress call (the handler at lines 272-278
reports none), so its progress sequence is a prefix of this list. -/
def progressValues (confidence : ℤ) : List ℚ :=
  if confidence < 70 then
    [1/10, 2/10, 4/10, 6/10, 9/10, 1]
  else
    [1/10, 2/10, 4/10, 5/10, 7/10, 8/10, 9/10, 1]

/-- Python `"\n".join` on the retained log lines (log text as `List Char`). -/
def joinLines : List (List Char) → List Char
  | [] => []
  | [m] => m
  | m :: m2 :: ms => m ++ '\n' :: joinLines (m2 :: ms)

/-- The log text returned by one `add_log` call after the messages `msgs`
(each already timestamp-formatted) have been appended: main.py lines 19-23
return `"\n".join(log_messages[-50:])` (window w = 50); callbacks.py lines
38-64 keep the last 100 messages before joining (window w = 100).  Both
are `joinLines` of the last `w` messages. -/
def addLogOutput (w : ℕ) (msgs : List (List Char)) : List Char :=
  joinLines (msgs.drop (msgs.length - w))

/-- The cumulative log texts carried by the successive events of one run in
which the formatted messages `msgs` are logged in order: the i-th emitted
log is the sink output right after the first i+1 messages. -/
def logOutputs (w : ℕ) (msgs : List (List Char)) : List (List Char) :=
  (List.range msgs.length).map fun i => addLogOutput w (msgs.take (i + 1))

/-- Boolean list-prefix test. -/
def startsWithB : List Char → List Char → Bool
  | [], _ => true
  | _ :: _, [] => false
  | a :: as, b :: bs => (a == b) && startsWithB as bs

/-- Boolean check that each entry of the list is a prefix of the next. -/
def chainB : List (List Char) → Bool
  | [] => true
  | [_] => true
  | a :: b :: t => startsWithB a b && chainB (b :: t)

/-- A run logging 51 messages: one line `a` followed by fifty lines `b`
(standing for the per-step messages of crew.py lines 88 and 95, which occur
once or twice per agent step and are bounded by no constant). -/
def overflowMsgs : List (List Char) :=
  ['a'] :: List.replicate 50 ['b']

/-- Sample invoice of spec §8: one line item 2 × 100 = 200, matching
subtotal, a well-formed 15-character GSTIN. -/
def sampleInvoice : ParsedInvoice :=
  { invoice_number := some "INV-2024-001"
    vendor := { name := some "Acme Supplies", gstin := some "27AAAAA0000A1Z5" }
    buyer := { name := some "Globex" }
    line_items := [{ quantity := 2, rate := 100, amount := 200 }]
    subtotal := 200
    total_amount := 236 }

/-- Scenario invoice of spec §8 with a broken line item: 2 × 100 ≠ 150. -/
def badItem : LineItem := { quantity := 2, rate := 100, amount := 150 }

/-- Invoice holding only `badItem`; its subtotal disagrees with the line sum. -/
def badInvoice : ParsedInvoice :=
  { vendor := {}, buyer := {}, line_items := [badItem], subtotal := 200 }

/-- Invoice with no line items, zero subtotal and no GSTIN. -/
def emptyInvoice : ParsedInvoice :=
  { vendor := {}, buyer := {} }

/-! Helper lemmas. -/

theorem pyInt_intCast (n : ℤ) : pyInt ((n : ℚ)) = n := by
  unfold pyInt
  split
  · exact Int.floor_intCast n
  · exact Int.ceil_intCast n

theorem round2_intCast (n : ℤ) : round2 ((n : ℚ)) = n := by
  unfold round2
  have h : ⌊(n : ℚ) * 100 + 1 / 2⌋ = n * 100 := by
    rw [Int.floor_eq_iff]
    push_cast
    constructor <;> linarith
  rw [h]
  push_cast
  ring

theorem scoreVal (f : ℕ) :
    pyInt (((10 : ℚ) - (f : ℚ)) / (10 : ℚ) * 100) = (10 - (f : ℤ)) * 10 := by
  have h : ((10 : ℚ) - (f : ℚ)) / (10 : ℚ) * 100 = (((10 - (f : ℤ)) * 10 : ℤ) : ℚ) := by
    push_cast
    ring
  rw [h, pyInt_intCast]

theorem roundVal (f : ℕ) :
    round ((100 : ℚ) * ((10 : ℚ) - (f : ℚ)) / (10 : ℚ)) = (10 - (f : ℤ)) * 10 := by
  have h : (100 : ℚ) * ((10 : ℚ) - (f : ℚ)) / (10 : ℚ) = (((10 - (f : ℤ)) * 10 : ℤ) : ℚ) := by
    push_cast
    ring
  rw [h, round_intCast]

theorem categoryResults_length (inv : ParsedInvoice) : (categoryResults inv).length = 10 := rfl

theorem failedChecks_le_length (rs : List RuleResult) : failedChecks rs ≤ rs.length :=
  List.countP_le_length _

theorem run_ok_results (inv : ParsedInvoice) :
    (runValidationTool (Except.ok inv)).category_results = categoryResults inv := rfl

theorem run_ok_score (inv : ParsedInvoice) :
    (runValidationTool (Except.ok inv)).overall_compliance_score =
      (10 - (failedChecks (categoryResults inv) : ℤ)) * 10 := by
  show overallScore (categoryResults inv) = _
  rw [overallScore, categoryResults_length inv]
  norm_num
  exact scoreVal (failedChecks (categoryResults inv))

theorem failedChecks_le_five (inv : ParsedInvoice) :
    failedChecks (categoryResults inv) ≤ 5 := by
  have hb : (("pass" : String) == "fail") = false := rfl
  rcases Bool.eq_false_or_eq_true (invNumValid inv) with h1 | h1 <;>
    rcases Bool.eq_false_or_eq_true (validateGstinFormat inv.vendor.gstin) with h2 | h2 <;>
    rcases Bool.eq_false_or_eq_true (lineItemsValid inv) with h3 | h3 <;>
    rcases Bool.eq_false_or_eq_true (subtotalValid inv) with h4 | h4 <;>
    simp [failedChecks, categoryResults, validateDocumentAuthenticity,
      validateGstCompliance, validateArithmetic, validateTdsCompliance,
      validatePolicyRules, a1Result, a2Result, b1Result, b2Result, c1Result,
      c2Result, d1Result, d2Result, e1Result, e2Result, h1, h2, h3, h4,
      List.countP_cons, List.countP_nil, hb]

theorem countP_enum_snd (f : LineItem → Bool) (l : List LineItem) :
    (l.enum.countP fun p => f p.2) = l.countP f := by
  have h : ∀ (n : ℕ) (l : List LineItem),
      ((l.enumFrom n).countP fun p => f p.2) = l.countP f := by
    intro n l
    induction l generalizing n with
    | nil => rfl
    | cons a t ih => simp [List.enumFrom, List.countP_cons, ih]
  exact h 0 l

theorem joinLines_append_single (l : List (List Char)) (m : List Char) :
    joinLines l <+: joinLines (l ++ [m]) := by
  induction l with
  | nil => exact List.nil_prefix
  | cons a t ih =>
    cases t with
    | nil =>
      show joinLines [a] <+: joinLines [a, m]
      show a <+: a ++ '\n' :: m
      exact List.prefix_append a ('\n' :: m)
    | cons b t2 =>
      show a ++ '\n' :: joinLines (b :: t2) <+: a ++ '\n' :: joinLines ((b :: t2) ++ [m])
      obtain ⟨t3, ht⟩ := ih
      exact ⟨t3, by rw [← ht]; simp⟩

theorem startsWithB_iff (a b : List Char) : startsWithB a b = true ↔ a <+: b := by
  induction a generalizing b with
  | nil => simp [startsWithB, List.nil_prefix]
  | cons x xs ih =>
    cases b with
    | nil => simp [startsWithB]
    | cons y ys =>
      simp [startsWithB, Bool.and_eq_true, beq_iff_eq, List.cons_prefix_cons, ih]

theorem chainB_iff (l : List (List Char)) :
    chainB l = true ↔ List.Chain' (fun a b => a <+: b) l := by
  match l with
  | [] => simp [chainB]
  | [a] => simp [chainB]
  | a :: b :: t =>
    simp [chainB, Bool.and_eq_true, startsWithB_iff, List.chain'_cons, chainB_iff (b :: t)]

/-! Claim theorems. -/

/-- Claim C5: for every input, the validation tool entry point is total (it
is a Lean function); on the exception path it returns a report with score 0,
the error field set, and empty category_results. -/
theorem engine_error_path (e : String) :
    runValidationTool (Except.error e) =
      { error := some e, category_results := [], overall_compliance_score := 0 } := rfl

/-- Claim C6 (code evaluated at the failing input): whatever the parse
stage produces — even a structured invoice whose JSON carried confidence 69
or 70 — the streaming run invokes only the parse crew: the read of the
nonexistent `ParsedInvoice.confidence` raises before the branch, so neither
the Validate stage nor the low-confidence reporting branch is ever
invoked, contradicting the claimed confidence-gated routing. -/
theorem crew_branch_unreachable (parsed : Option ParsedInvoice) :
    stagesInvoked parsed = [Stage.parsing] := by
  cases parsed <;> rfl

/-- Claim C7: the stub checks D1, D2, E1, E2 are these fixed pass results
(confidences 70, 60, 50, 50) for every invoice, so in particular D1 passes
at confidence 70 regardless of total_amount (the `tdsApplicable` value is
computed from `total_amount > 30000` but never read). -/
theorem stub_checks_fixed (inv : ParsedInvoice) :
    validateTdsCompliance inv =
      [⟨"Category D - TDS Compliance",
        "D1 TDS applicability determination based on vendor nature", "pass", [], 70⟩,
       ⟨"Category D - TDS Compliance",
        "D2 Correct TDS section identification (194C / 194J / 194H etc.)", "pass", [], 60⟩]
    ∧ validatePolicyRules inv =
      [⟨"Category E - Policy & Business Rules",
        "E1 Invoice amount within PO tolerance (±5%)", "pass", [], 50⟩,
       ⟨"Category E - Policy & Business Rules",
        "E2 Invoice date within active contract period", "pass", [], 50⟩] :=
  ⟨rfl, rfl⟩

/-- Claim C8: every prefix of the progress sequence of a run (a failing run
stops after a prefix) is non-decreasing, and the full sequence of a
completing run ends at 1.0 — on both branches. -/
theorem progress_monotone (confidence : ℤ) (k : ℕ) :
    List.Chain' (fun a b : ℚ => a ≤ b) ((progressValues confidence).take k)
    ∧ (progressValues confidence).getLast? = some 1 := by
  constructor
  · have h : List.Chain' (fun a b : ℚ => a ≤ b) (progressValues confidence) := by
      unfold progressValues
      split <;> norm_num [List.chain'_cons]
    exact h.take k
  · unfold progressValues
    split <;> rfl

/-- Claim C10: whenever the engine does not hit its exception handler it
returns exactly these 10 checks in the fixed order A1, A2, B1, B2, C1, C2,
D1, D2, E1, E2; the results at positions 1, 6, 7, 8, 9 (A2, D1, D2, E1,
E2) always pass; hence at most 5 checks fail and the score is at least 50
(so in particular nonzero) on this path. -/
theorem engine_results_shape (inv : ParsedInvoice) :
    (categoryResults inv).map RuleResult.details =
      ["A1 Invoice number format validation",
       "A2 Duplicate invoice detection across vendors",
       "B1 GSTIN format validation (15-character alphanumeric)",
       "B2 GSTIN active / suspended status verification",
       "C1 Line item validation quantity X rate = amount",
       "C2 Subtotal equals sum of line item amounts",
       "D1 TDS applicability determination based on vendor nature",
       "D2 Correct TDS section identification (194C / 194J / 194H etc.)",
       "E1 Invoice amount within PO tolerance (±5%)",
       "E2 Invoice date within active contract period"]
    ∧ ((categoryResults inv).map RuleResult.status)[1]? = some "pass"
    ∧ ((categoryResults inv).map RuleResult.status)[6]? = some "pass"
    ∧ ((categoryResults inv).map RuleResult.status)[7]? = some "pass"
    ∧ ((categoryResults inv).map RuleResult.status)[8]? = some "pass"
    ∧ ((categoryResults inv).map RuleResult.status)[9]? = some "pass"
    ∧ failedChecks (categoryResults inv) ≤ 5
    ∧ 50 ≤ (runValidationTool (Except.ok inv)).overall_compliance_score := by
  refine ⟨rfl, rfl, rfl, rfl, rfl, rfl, failedChecks_le_five inv, ?_⟩
  rw [run_ok_score]
  have h5 := failedChecks_le_five inv
  omega

/-- Claim C1: on the non-exception path the overall score equals
round(100 × (total − failed) / total) over the produced results, and is 0
if the result list were empty (vacuous: the list always has 10 entries,
and on the code path `total_checks == 0` would actually leave the initial
100 in place); on every path, exception path included, the score is an
integer in [0, 100] which is 0 only when no checks exist or all failed. -/
theorem overall_score_spec (x : Except String ParsedInvoice) :
    (∀ inv, x = Except.ok inv →
      (runValidationTool x).overall_compliance_score =
        round ((100 : ℚ) * (((categoryResults inv).length : ℚ) -
          (failedChecks (categoryResults inv) : ℚ)) / ((categoryResults inv).length : ℚ))
      ∧ ((categoryResults inv).length = 0 →
          (runValidationTool x).overall_compliance_score = 0))
    ∧ 0 ≤ (runValidationTool x).overall_compliance_score
    ∧ (runValidationTool x).overall_compliance_score ≤ 100
    ∧ ((runValidationTool x).overall_compliance_score = 0 →
        (runValidationTool x).category_results = [] ∨
          ∀ r ∈ (runValidationTool x).category_results, r.status = "fail") := by
  cases x with
  | error e =>
    refine ⟨fun inv h => absurd h (by simp), ?_, ?_, fun _ => Or.inl rfl⟩
    · show (0 : ℤ) ≤ 0
      exact le_refl 0
    · show (0 : ℤ) ≤ 100
      norm_num
  | ok inv =>
    have hf : failedChecks (categoryResults inv) ≤ 10 := by
      have h := failedChecks_le_length (categoryResults inv)
      rwa [categoryResults_length] at h
    have hs := run_ok_score inv
    refine ⟨?_, ?_, ?_, ?_⟩
    · intro inv2 h
      cases h
      constructor
      · rw [hs, categoryResults_length]
        norm_num
        exact (roundVal (failedChecks (categoryResults inv))).symm
      · intro h0
        rw [categoryResults_length] at h0
        exact absurd h0 (by norm_num)
    · rw [hs]
      omega
    · rw [hs]
      omega
    · intro h0
      rw [hs] at h0
      have hf10 : failedChecks (categoryResults inv) = 10 := by omega
      refine Or.inr fun r hr => ?_
      have hlen : (categoryResults inv).countP (fun r => r.status == "fail") =
          (categoryResults inv).length := by
        rw [categoryResults_length]
        exact hf10
      have hp := List.countP_eq_length.mp hlen r hr
      exact eq_of_beq hp

/-- Witness for C1 at a concrete invoice on the ok path. -/
theorem overall_score_spec_witness :
    (runValidationTool (Except.ok sampleInvoice)).overall_compliance_score =
      round ((100 : ℚ) * (((categoryResults sampleInvoice).length : ℚ) -
        (failedChecks (categoryResults sampleInvoice) : ℚ)) /
        ((categoryResults sampleInvoice).length : ℚ)) :=
  ((overall_score_spec (Except.ok sampleInvoice)).1 sampleInvoice rfl).1

theorem lineItemsValid_iff (inv : ParsedInvoice) :
    lineItemsValid inv = true ↔
      ∀ it ∈ inv.line_items,
        |round2 (it.quantity * it.rate) - round2 it.amount| ≤ 1 / 100 := by
  simp [lineItemsValid, lineMismatch, List.all_eq_true, not_lt]

theorem lineItemsValid_false_iff (inv : ParsedInvoice) :
    lineItemsValid inv = false ↔
      ∃ it ∈ inv.line_items,
        1 / 100 < |round2 (it.quantity * it.rate) - round2 it.amount| := by
  rw [← Bool.not_eq_true, lineItemsValid_iff]
  push_neg
  simp [not_le]

/-- Claim C2: the C1 check passes iff every line item satisfies
round(quantity × rate, 2) = round(amount, 2) within 0.01 (equivalently, it
fails iff a single line mismatches); the failure list holds exactly one
human-readable message per mismatching line, each naming the line number
and its quantity, rate and amount; and the confidence is 100 on pass and
80 on fail. -/
theorem c1_rule_spec (inv : ParsedInvoice) :
    ((c1Result inv).status = "pass" ↔
      ∀ it ∈ inv.line_items,
        |round2 (it.quantity * it.rate) - round2 it.amount| ≤ 1 / 100)
    ∧ ((c1Result inv).status = "fail" ↔
      ∃ it ∈ inv.line_items,
        1 / 100 < |round2 (it.quantity * it.rate) - round2 it.amount|)
    ∧ (c1Result inv).failures.length = inv.line_items.countP lineMismatch
    ∧ (∀ p ∈ inv.line_items.enum, lineMismatch p.2 = true →
        c1LineMsg p.1 p.2 ∈ (c1Result inv).failures)
    ∧ (c1Result inv).confidence = (if (c1Result inv).status = "pass" then 100 else 80) := by
  have hpf : ("pass" : String) ≠ "fail" := by decide
  have hstat : (c1Result inv).status = if lineItemsValid inv then "pass" else "fail" := rfl
  have hlen : (c1Result inv).failures.length = inv.line_items.countP lineMismatch := by
    show (c1Failures inv).length = _
    rw [c1Failures, List.length_map, ← List.countP_eq_length_filter, countP_enum_snd]
  have hmem : ∀ p ∈ inv.line_items.enum, lineMismatch p.2 = true →
      c1LineMsg p.1 p.2 ∈ (c1Result inv).failures := by
    intro p hp hm
    show _ ∈ c1Failures inv
    rw [c1Failures]
    exact List.mem_map_of_mem _ (List.mem_filter.mpr ⟨hp, hm⟩)
  cases hb : lineItemsValid inv with
  | false =>
    have hst : (c1Result inv).status = "fail" := by simp [c1Result, hb]
    have hex := (lineItemsValid_false_iff inv).mp hb
    rw [hst]
    refine ⟨iff_of_false (Ne.symm hpf) ?_, iff_of_true rfl hex, hlen, hmem, ?_⟩
    · intro hall
      obtain ⟨it, hit, hgt⟩ := hex
      exact absurd hgt (not_lt.mpr (hall it hit))
    · rw [if_neg (Ne.symm hpf)]
      simp [c1Result, hb]
  | true =>
    have hst : (c1Result inv).status = "pass" := by simp [c1Result, hb]
    have hall := (lineItemsValid_iff inv).mp hb
    rw [hst]
    refine ⟨iff_of_true rfl hall, iff_of_false hpf ?_, hlen, hmem, ?_⟩
    · rintro ⟨it, hit, hgt⟩
      exact absurd hgt (not_lt.mpr (hall it hit))
    · rw [if_pos rfl]
      simp [c1Result, hb]

/-- Witness for C2 at the spec §8 scenario invoice: its single line item
2 × 100 ≠ 150 mismatches and its message is recorded. -/
theorem c1_rule_spec_witness :
    (0, badItem) ∈ badInvoice.line_items.enum
    ∧ c1LineMsg 0 badItem ∈ (c1Result badInvoice).failures := by
  have hmm : lineMismatch badItem = true := by
    simp only [lineMismatch, badItem, decide_eq_true_eq]
    have h1 : ((2 : ℚ) * 100) = ((200 : ℤ) : ℚ) := by norm_num
    have h2 : (150 : ℚ) = ((150 : ℤ) : ℚ) := by norm_num
    rw [h1, h2, round2_intCast, round2_intCast]
    norm_num
  have hpmem : (0, badItem) ∈ badInvoice.line_items.enum := by
    show (0, badItem) ∈ [(0, badItem)]
    exact List.mem_singleton.mpr rfl
  exact ⟨hpmem, (c1_rule_spec badInvoice).2.2.2.1 (0, badItem) hpmem hmm⟩

/-- Claim C3: the C2 check passes iff the subtotal matches the sum of the
line-item amounts within 0.01; confidence is 100 on pass and 90 on fail;
the failure message states expected versus actual; and an invoice with no
line items and subtotal 0 passes both C1 (vacuously) and C2. -/
theorem c2_rule_spec (inv : ParsedInvoice) :
    ((c2Result inv).status = "pass" ↔
      |calculatedSubtotal inv - inv.subtotal| < 1 / 100)
    ∧ (c2Result inv).confidence = (if (c2Result inv).status = "pass" then 100 else 90)
    ∧ (c2Result inv).failures =
        (if (c2Result inv).status = "pass" then []
         else [c2Msg (calculatedSubtotal inv) inv.subtotal])
    ∧ (inv.line_items = [] → inv.subtotal = 0 →
        (c1Result inv).status = "pass" ∧ (c2Result inv).status = "pass") := by
  have hpf : ("pass" : String) ≠ "fail" := by decide
  cases hb : subtotalValid inv with
  | false =>
    have hst : (c2Result inv).status = "fail" := by simp [c2Result, hb]
    have hc : ¬ |calculatedSubtotal inv - inv.subtotal| < 1 / 100 := by
      simpa [subtotalValid] using hb
    refine ⟨by rw [hst]; exact iff_of_false (Ne.symm hpf) hc,
      by rw [hst, if_neg (Ne.symm hpf)]; simp [c2Result, hb],
      by rw [hst, if_neg (Ne.symm hpf)]; simp [c2Result, hb], ?_⟩
    intro hitems hsub
    exfalso
    apply hc
    rw [hsub]
    simp [calculatedSubtotal, hitems]
  | true =>
    have hst : (c2Result inv).status = "pass" := by simp [c2Result, hb]
    have hc : |calculatedSubtotal inv - inv.subtotal| < 1 / 100 := by
      simpa [subtotalValid] using hb
    refine ⟨by rw [hst]; exact iff_of_true rfl hc,
      by rw [hst, if_pos rfl]; simp [c2Result, hb],
      by rw [hst, if_pos rfl]; simp [c2Result, hb], ?_⟩
    intro hitems _
    exact ⟨by simp [c1Result, lineItemsValid, hitems], hst⟩

/-- Witness for C3 at the invoice with no line items and subtotal 0. -/
theorem c2_rule_spec_witness :
    emptyInvoice.line_items = [] ∧ emptyInvoice.subtotal = 0
    ∧ (c1Result emptyInvoice).status = "pass"
    ∧ (c2Result emptyInvoice).status = "pass" :=
  ⟨rfl, rfl, ((c2_rule_spec emptyInvoice).2.2.2 rfl rfl).1,
    ((c2_rule_spec emptyInvoice).2.2.2 rfl rfl).2⟩

theorem gstin_valid_iff (g : Option String) :
    validateGstinFormat g = true ↔
      ∃ s, g = some s ∧ s.length = 15 ∧ s.data.all Char.isAlphanum = true := by
  cases g with
  | none => simp [validateGstinFormat]
  | some g =>
    constructor
    · intro h
      by_cases hc : g = "" ∨ g.length ≠ 15
      · rw [validateGstinFormat, if_pos hc] at h
        cases h
      · rw [validateGstinFormat, if_neg hc] at h
        push_neg at hc
        have h2 : ¬g.data = [] ∧ ∀ x ∈ g.data, x.isAlphanum = true := by
          simpa [pyIsalnum, Bool.and_eq_true] using h
        have hall : g.data.all Char.isAlphanum = true := by
          simp only [List.all_eq_true]
          exact h2.2
        exact ⟨g, rfl, hc.2, hall⟩
    · rintro ⟨s, hs, h15, hall⟩
      injection hs with he
      subst he
      have hne : g ≠ "" := by
        intro he2
        rw [he2] at h15
        exact absurd h15 (by decide)
      rw [validateGstinFormat, if_neg (by push_neg; exact ⟨hne, by rw [h15]⟩)]
      have hdata : g.data ≠ [] := by
        intro hd
        have : g.length = 0 := by
          show g.data.length = 0
          rw [hd]
          rfl
        rw [this] at h15
        exact absurd h15 (by decide)
      simp [pyIsalnum, Bool.and_eq_true, List.isEmpty_iff, hdata, hall]

/-- Claim C4: the B1 check passes iff the vendor GSTIN is present, exactly
15 characters and alphanumeric; confidence is 100 on pass and 0 on fail;
a missing GSTIN fails with confidence 0, as does any GSTIN of the wrong
length or holding a non-alphanumeric character. -/
theorem b1_rule_spec (inv : ParsedInvoice) :
    ((b1Result inv).status = "pass" ↔
      ∃ s, inv.vendor.gstin = some s ∧ s.length = 15 ∧ s.data.all Char.isAlphanum = true)
    ∧ (b1Result inv).confidence = (if (b1Result inv).status = "pass" then 100 else 0)
    ∧ (inv.vendor.gstin = none →
        (b1Result inv).status = "fail" ∧ (b1Result inv).confidence = 0)
    ∧ (∀ s, inv.vendor.gstin = some s →
        s.length ≠ 15 ∨ s.data.all Char.isAlphanum = false →
        (b1Result inv).status = "fail" ∧ (b1Result inv).confidence = 0) := by
  have hpf : ("pass" : String) ≠ "fail" := by decide
  cases hb : validateGstinFormat inv.vendor.gstin with
  | false =>
    have hst : (b1Result inv).status = "fail" := by simp [b1Result, hb]
    have hnex : ¬ ∃ s, inv.vendor.gstin = some s ∧ s.length = 15 ∧
        s.data.all Char.isAlphanum = true := by
      rw [← gstin_valid_iff]
      simp [hb]
    exact ⟨by rw [hst]; exact iff_of_false (Ne.symm hpf) hnex,
      by rw [hst, if_neg (Ne.symm hpf)]; simp [b1Result, hb],
      fun _ => ⟨hst, by simp [b1Result, hb]⟩,
      fun s _ _ => ⟨hst, by simp [b1Result, hb]⟩⟩
  | true =>
    have hst : (b1Result inv).status = "pass" := by simp [b1Result, hb]
    have hex := (gstin_valid_iff inv.vendor.gstin).mp hb
    refine ⟨by rw [hst]; exact iff_of_true rfl hex,
      by rw [hst, if_pos rfl]; simp [b1Result, hb], ?_, ?_⟩
    · intro hnone
      obtain ⟨s, hs, _⟩ := hex
      rw [hnone] at hs
      cases hs
    · intro s hs hbad
      obtain ⟨s2, hs2, h15, hall⟩ := hex
      rw [hs] at hs2
      injection hs2 with he
      subst he
      rcases hbad with hbad | hbad
      · exact absurd h15 hbad
      · rw [hall] at hbad
        cases hbad

/-- Witness for C4 at the invoice with no vendor GSTIN. -/
theorem b1_rule_spec_witness :
    emptyInvoice.vendor.gstin = none
    ∧ (b1Result emptyInvoice).status = "fail"
    ∧ (b1Result emptyInvoice).confidence = 0 :=
  ⟨rfl, ((b1_rule_spec emptyInvoice).2.2.1 rfl).1,
    ((b1_rule_spec emptyInvoice).2.2.1 rfl).2⟩

/-- Claim C9 counterexample: in a run that logs 51 messages through the
main.py sink (window 50), the emitted cumulative log texts are NOT a
prefix-chain — `chainB` (which decides exactly the consecutive-prefix
property, see `chainB_iff`) evaluates to false: the 51st event's log
starts with the second message, dropping the first, so the 50th event's
log is not one of its prefixes. -/
theorem log_chain_counterexample : chainB (logOutputs 50 overflowMsgs) = false := by decide

/-- Claim C9 amended: as long as a run logs at most `w` messages (50 for
the main.py sink, 100 for the callbacks.py sink), each event's cumulative
log text has the previous event's log text as a prefix. -/
theorem log_window_chain (w : ℕ) (msgs : List (List Char)) (h : msgs.length ≤ w) :
    List.Chain' (fun a b => a <+: b) (logOutputs w msgs) := by
  unfold logOutputs
  rw [List.chain'_map]
  cases hn : msgs.length with
  | zero => simp
  | succ m =>
    rw [List.chain'_range_succ]
    intro i hi
    have hi1 : i + 1 < msgs.length := by omega
    have ht1 : (msgs.take (i + 1)).length ≤ w := by
      rw [List.length_take]
      omega
    have ht2 : (msgs.take (i + 1 + 1)).length ≤ w := by
      rw [List.length_take]
      omega
    have e1 : addLogOutput w (msgs.take (i + 1)) = joinLines (msgs.take (i + 1)) := by
      unfold addLogOutput
      rw [Nat.sub_eq_zero_of_le ht1, List.drop_zero]
    have e2 : addLogOutput w (msgs.take (i + 1 + 1)) = joinLines (msgs.take (i + 1 + 1)) := by
      unfold addLogOutput
      rw [Nat.sub_eq_zero_of_le ht2, List.drop_zero]
    rw [e1, e2]
    have hsplit : msgs.take (i + 1 + 1) = msgs.take (i + 1) ++ [msgs[i + 1]] := by
      rw [← List.take_concat_get msgs (i + 1) hi1, List.concat_eq_append]
    rw [hsplit]
    exact joinLines_append_single _ _

/-- Witness for the amended C9 at a two-message run. -/
theorem log_window_chain_witness :
    ([['a'], ['b']] : List (List Char)).length ≤ 50
    ∧ List.Chain' (fun a b => a <+: b) (logOutputs 50 [['a'], ['b']]) :=
  ⟨by decide, log_window_chain 50 [['a'], ['b']] (by decide)⟩

